import Mathlib

/-!
Shallow embedding of the core of `dcc6502.c` (6502 disassembler and cycle
counter): the static opcode table, the addressing-mode dispatch of
`disassemble`, and the cycle-count annotation of `append_cycle`.
Machine integers are modelled as `Nat` with explicit `% 65536` / `% 256`
where the C code's `uint16_t` / `uint8_t` arithmetic wraps.
-/

namespace Dcc6502

/-- The 6502's 13 addressing modes (`addressing_mode_e` in the source). -/
inductive addressing_mode_e : Type
  | IMMED  -- Immediate
  | ABSOL  -- Absolute
  | ZEROP  -- Zero Page
  | IMPLI  -- Implied
  | INDIA  -- Indirect Absolute
  | ABSIX  -- Absolute indexed with X
  | ABSIY  -- Absolute indexed with Y
  | ZEPIX  -- Zero page indexed with X
  | ZEPIY  -- Zero page indexed with Y
  | INDIN  -- Indexed indirect (with X)
  | ININD  -- Indirect indexed (with Y)
  | RELAT  -- Relative
  | ACCUM  -- Accumulator
  deriving DecidableEq, Repr

/-- Cross page boundary, +1 cycle. -/
def CYCLE_PAGE : Nat := 1

/-- Branch taken, +1 cycle. -/
def CYCLE_BRANCH : Nat := 2

/-- Illegal 6502 instruction. -/
def BAD : Nat := 8

/-- Mask of the two cycle-counting exception flags. -/
def CYCLE_MASK : Nat := CYCLE_PAGE ||| CYCLE_BRANCH

/-- One entry of the opcode table (`opcode_t` in the source). -/
structure opcode_t where
  mnemonic : String
  addressing : addressing_mode_e
  cycles : Nat
  cycles_exceptions : Nat
  deriving DecidableEq, Repr

/-- Rows 0x00-0x0F of `g_opcode_table`. -/
def g_opcode_table_00 : List opcode_t := [
  ⟨"BRK", .IMPLI, 7, 0⟩,  -- 00
  ⟨"ORA", .INDIN, 6, 0⟩,  -- 01
  ⟨"???", .IMMED, 0, BAD⟩,  -- 02
  ⟨"???", .IMMED, 0, BAD⟩,  -- 03
  ⟨"???", .IMMED, 0, BAD⟩,  -- 04
  ⟨"ORA", .ZEROP, 3, 0⟩,  -- 05
  ⟨"ASL", .ZEROP, 5, 0⟩,  -- 06
  ⟨"???", .IMMED, 0, BAD⟩,  -- 07
  ⟨"PHP", .IMPLI, 3, 0⟩,  -- 08
  ⟨"ORA", .IMMED, 2, 0⟩,  -- 09
  ⟨"ASL", .ACCUM, 2, 0⟩,  -- 0A
  ⟨"???", .IMMED, 0, BAD⟩,  -- 0B
  ⟨"???", .IMMED, 0, BAD⟩,  -- 0C
  ⟨"ORA", .ABSOL, 4, 0⟩,  -- 0D
  ⟨"ASL", .ABSOL, 6, 0⟩,  -- 0E
  ⟨"???", .IMMED, 0, BAD⟩]  -- 0F

/-- Rows 0x10-0x1F of `g_opcode_table`. -/
def g_opcode_table_01 : List opcode_t := [
  ⟨"BPL", .RELAT, 2, CYCLE_PAGE ||| CYCLE_BRANCH⟩,  -- 10
  ⟨"ORA", .ININD, 5, CYCLE_PAGE⟩,  -- 11
  ⟨"???", .IMMED, 0, BAD⟩,  -- 12
  ⟨"???", .IMMED, 0, BAD⟩,  -- 13
  ⟨"???", .IMMED, 0, BAD⟩,  -- 14
  ⟨"ORA", .ZEPIX, 4, 0⟩,  -- 15
  ⟨"ASL", .ZEPIX, 6, 0⟩,  -- 16
  ⟨"???", .IMMED, 0, BAD⟩,  -- 17
  ⟨"CLC", .IMPLI, 2, 0⟩,  -- 18
  ⟨"ORA", .ABSIY, 4, CYCLE_PAGE⟩,  -- 19
  ⟨"???", .IMMED, 0, BAD⟩,  -- 1A
  ⟨"???", .IMMED, 0, BAD⟩,  -- 1B
  ⟨"???", .IMMED, 0, BAD⟩,  -- 1C
  ⟨"ORA", .ABSIX, 4, CYCLE_PAGE⟩,  -- 1D
  ⟨"ASL", .ABSIX, 7, 0⟩,  -- 1E
  ⟨"???", .IMMED, 0, BAD⟩]  -- 1F

/-- Rows 0x20-0x2F of `g_opcode_table`. -/
def g_opcode_table_02 : List opcode_t := [
  ⟨"JSR", .ABSOL, 6, 0⟩,  -- 20
  ⟨"AND", .INDIN, 6, 0⟩,  -- 21
  ⟨"???", .IMMED, 0, BAD⟩,  -- 22
  ⟨"???", .IMMED, 0, BAD⟩,  -- 23
  ⟨"BIT", .ZEROP, 3, 0⟩,  -- 24
  ⟨"AND", .ZEROP, 3, 0⟩,  -- 25
  ⟨"ROL", .ZEROP, 5, 0⟩,  -- 26
  ⟨"???", .IMMED, 0, BAD⟩,  -- 27
  ⟨"PLP", .IMPLI, 4, 0⟩,  -- 28
  ⟨"AND", .IMMED, 2, 0⟩,  -- 29
  ⟨"ROL", .ACCUM, 2, 0⟩,  -- 2A
  ⟨"???", .IMMED, 0, BAD⟩,  -- 2B
  ⟨"BIT", .ABSOL, 4, 0⟩,  -- 2C
  ⟨"AND", .ABSOL, 4, 0⟩,  -- 2D
  ⟨"ROL", .ABSOL, 6, 0⟩,  -- 2E
  ⟨"???", .IMMED, 0, BAD⟩]  -- 2F

/-- Rows 0x30-0x3F of `g_opcode_table`. -/
def g_opcode_table_03 : List opcode_t := [
  ⟨"BMI", .RELAT, 2, CYCLE_PAGE ||| CYCLE_BRANCH⟩,  -- 30
  ⟨"AND", .ININD, 5, CYCLE_PAGE⟩,  -- 31
  ⟨"???", .IMMED, 0, BAD⟩,  -- 32
  ⟨"???", .IMMED, 0, BAD⟩,  -- 33
  ⟨"???", .IMMED, 0, BAD⟩,  -- 34
  ⟨"AND", .ZEPIX, 4, 0⟩,  -- 35
  ⟨"ROL", .ZEPIX, 6, 0⟩,  -- 36
  ⟨"???", .IMMED, 0, BAD⟩,  -- 37
  ⟨"SEC", .IMPLI, 2, 0⟩,  -- 38
  ⟨"AND", .ABSIY, 4, CYCLE_PAGE⟩,  -- 39
  ⟨"???", .IMMED, 0, BAD⟩,  -- 3A
  ⟨"???", .IMMED, 0, BAD⟩,  -- 3B
  ⟨"???", .IMMED, 0, BAD⟩,  -- 3C
  ⟨"AND", .ABSIX, 4, CYCLE_PAGE⟩,  -- 3D
  ⟨"ROL", .ABSIX, 7, 0⟩,  -- 3E
  ⟨"???", .IMMED, 0, BAD⟩]  -- 3F

/-- Rows 0x40-0x4F of `g_opcode_table`. -/
def g_opcode_table_04 : List opcode_t := [
  ⟨"RTI", .IMPLI, 6, 0⟩,  -- 40
  ⟨"EOR", .INDIN, 6, 1⟩,  -- 41
  ⟨"???", .IMMED, 0, BAD⟩,  -- 42
  ⟨"???", .IMMED, 0, BAD⟩,  -- 43
  ⟨"???", .IMMED, 0, BAD⟩,  -- 44
  ⟨"EOR", .ZEROP, 3, 0⟩,  -- 45
  ⟨"LSR", .ZEROP, 5, 0⟩,  -- 46
  ⟨"???", .IMMED, 0, BAD⟩,  -- 47
  ⟨"PHA", .IMPLI, 3, 0⟩,  -- 48
  ⟨"EOR", .IMMED, 2, 0⟩,  -- 49
  ⟨"LSR", .ACCUM, 2, 0⟩,  -- 4A
  ⟨"???", .IMMED, 0, BAD⟩,  -- 4B
  ⟨"JMP", .ABSOL, 3, 0⟩,  -- 4C
  ⟨"EOR", .ABSOL, 4, 0⟩,  -- 4D
  ⟨"LSR", .ABSOL, 6, 0⟩,  -- 4E
  ⟨"???", .IMMED, 0, BAD⟩]  -- 4F

/-- Rows 0x50-0x5F of `g_opcode_table`. -/
def g_opcode_table_05 : List opcode_t := [
  ⟨"BVC", .RELAT, 2, CYCLE_PAGE ||| CYCLE_BRANCH⟩,  -- 50
  ⟨"EOR", .ININD, 5, CYCLE_PAGE⟩,  -- 51
  ⟨"???", .IMMED, 0, BAD⟩,  -- 52
  ⟨"???", .IMMED, 0, BAD⟩,  -- 53
  ⟨"???", .IMMED, 0, BAD⟩,  -- 54
  ⟨"EOR", .ZEPIX, 4, 0⟩,  -- 55
  ⟨"LSR", .ZEPIX, 6, 0⟩,  -- 56
  ⟨"???", .IMMED, 0, BAD⟩,  -- 57
  ⟨"CLI", .IMPLI, 2, 0⟩,  -- 58
  ⟨"EOR", .ABSIY, 4, CYCLE_PAGE⟩,  -- 59
  ⟨"???", .IMMED, 0, BAD⟩,  -- 5A
  ⟨"???", .IMMED, 0, BAD⟩,  -- 5B
  ⟨"???", .IMMED, 0, BAD⟩,  -- 5C
  ⟨"EOR", .ABSIX, 4, CYCLE_PAGE⟩,  -- 5D
  ⟨"LSR", .ABSIX, 7, 0⟩,  -- 5E
  ⟨"???", .IMMED, 0, BAD⟩]  -- 5F

/-- Rows 0x60-0x6F of `g_opcode_table`. -/
def g_opcode_table_06 : List opcode_t := [
  ⟨"RTS", .IMPLI, 6, 0⟩,  -- 60
  ⟨"ADC", .INDIN, 6, 0⟩,  -- 61
  ⟨"???", .IMMED, 0, BAD⟩,  -- 62
  ⟨"???", .IMMED, 0, BAD⟩,  -- 63
  ⟨"???", .IMMED, 0, BAD⟩,  -- 64
  ⟨"ADC", .ZEROP, 3, 0⟩,  -- 65
  ⟨"ROR", .ZEROP, 5, 0⟩,  -- 66
  ⟨"???", .IMMED, 0, BAD⟩,  -- 67
  ⟨"PLA", .IMPLI, 4, 0⟩,  -- 68
  ⟨"ADC", .IMMED, 2, 0⟩,  -- 69
  ⟨"ROR", .ACCUM, 2, 0⟩,  -- 6A
  ⟨"???", .IMMED, 0, BAD⟩,  -- 6B
  ⟨"JMP", .INDIA, 5, 0⟩,  -- 6C
  ⟨"ADC", .ABSOL, 4, 0⟩,  -- 6D
  ⟨"ROR", .ABSOL, 6, 0⟩,  -- 6E
  ⟨"???", .IMMED, 0, BAD⟩]  -- 6F

/-- Rows 0x70-0x7F of `g_opcode_table`. -/
def g_opcode_table_07 : List opcode_t := [
  ⟨"BVS", .RELAT, 2, CYCLE_PAGE ||| CYCLE_BRANCH⟩,  -- 70
  ⟨"ADC", .ININD, 5, CYCLE_PAGE⟩,  -- 71
  ⟨"???", .IMMED, 0, BAD⟩,  -- 72
  ⟨"???", .IMMED, 0, BAD⟩,  -- 73
  ⟨"???", .IMMED, 0, BAD⟩,  -- 74
  ⟨"ADC", .ZEPIX, 4, 0⟩,  -- 75
  ⟨"ROR", .ZEPIX, 6, 0⟩,  -- 76
  ⟨"???", .IMMED, 0, BAD⟩,  -- 77
  ⟨"SEI", .IMPLI, 2, 0⟩,  -- 78
  ⟨"ADC", .ABSIY, 4, CYCLE_PAGE⟩,  -- 79
  ⟨"???", .IMMED, 0, BAD⟩,  -- 7A
  ⟨"???", .IMMED, 0, BAD⟩,  -- 7B
  ⟨"???", .IMMED, 0, BAD⟩,  -- 7C
  ⟨"ADC", .ABSIX, 4, CYCLE_PAGE⟩,  -- 7D
  ⟨"ROR", .ABSIX, 7, 0⟩,  -- 7E
  ⟨"???", .IMMED, 0, BAD⟩]  -- 7F

/-- Rows 0x80-0x8F of `g_opcode_table`. -/
def g_opcode_table_08 : List opcode_t := [
  ⟨"???", .IMMED, 0, BAD⟩,  -- 80
  ⟨"STA", .INDIN, 6, 0⟩,  -- 81
  ⟨"???", .IMMED, 0, BAD⟩,  -- 82
  ⟨"???", .IMMED, 0, BAD⟩,  -- 83
  ⟨"STY", .ZEROP, 3, 0⟩,  -- 84
  ⟨"STA", .ZEROP, 3, 0⟩,  -- 85
  ⟨"STX", .ZEROP, 3, 0⟩,  -- 86
  ⟨"???", .IMMED, 0, BAD⟩,  -- 87
  ⟨"DEY", .IMPLI, 2, 0⟩,  -- 88
  ⟨"???", .IMMED, 0, BAD⟩,  -- 89
  ⟨"TXA", .IMPLI, 2, 0⟩,  -- 8A
  ⟨"???", .IMMED, 0, BAD⟩,  -- 8B
  ⟨"STY", .ABSOL, 4, 0⟩,  -- 8C
  ⟨"STA", .ABSOL, 4, 0⟩,  -- 8D
  ⟨"STX", .ABSOL, 4, 0⟩,  -- 8E
  ⟨"???", .IMMED, 0, BAD⟩]  -- 8F

/-- Rows 0x90-0x9F of `g_opcode_table`. -/
def g_opcode_table_09 : List opcode_t := [
  ⟨"BCC", .RELAT, 2, CYCLE_PAGE ||| CYCLE_BRANCH⟩,  -- 90
  ⟨"STA", .ININD, 5, CYCLE_PAGE⟩,  -- 91
  ⟨"???", .IMMED, 0, BAD⟩,  -- 92
  ⟨"???", .IMMED, 0, BAD⟩,  -- 93
  ⟨"STY", .ZEPIX, 4, 0⟩,  -- 94
  ⟨"STA", .ZEPIX, 4, 0⟩,  -- 95
  ⟨"STX", .ZEPIY, 4, 0⟩,  -- 96
  ⟨"???", .IMMED, 0, BAD⟩,  -- 97
  ⟨"TYA", .IMPLI, 2, 0⟩,  -- 98
  ⟨"STA", .ABSIY, 4, CYCLE_PAGE⟩,  -- 99
  ⟨"TXS", .IMPLI, 2, 0⟩,  -- 9A
  ⟨"???", .IMMED, 0, BAD⟩,  -- 9B
  ⟨"???", .IMMED, 0, BAD⟩,  -- 9C
  ⟨"STA", .ABSIX, 4, CYCLE_PAGE⟩,  -- 9D
  ⟨"???", .IMMED, 0, BAD⟩,  -- 9E
  ⟨"???", .IMMED, 0, BAD⟩]  -- 9F

/-- Rows 0xA0-0xAF of `g_opcode_table`. -/
def g_opcode_table_0A : List opcode_t := [
  ⟨"LDY", .IMMED, 2, 0⟩,  -- A0
  ⟨"LDA", .INDIN, 6, 0⟩,  -- A1
  ⟨"LDX", .IMMED, 2, 0⟩,  -- A2
  ⟨"???", .IMMED, 0, BAD⟩,  -- A3
  ⟨"LDY", .ZEROP, 3, 0⟩,  -- A4
  ⟨"LDA", .ZEROP, 3, 0⟩,  -- A5
  ⟨"LDX", .ZEROP, 3, 0⟩,  -- A6
  ⟨"???", .IMMED, 0, BAD⟩,  -- A7
  ⟨"TAY", .IMPLI, 2, 0⟩,  -- A8
  ⟨"LDA", .IMMED, 2, 0⟩,  -- A9
  ⟨"TAX", .IMPLI, 2, 0⟩,  -- AA
  ⟨"???", .IMMED, 0, BAD⟩,  -- AB
  ⟨"LDY", .ABSOL, 4, 0⟩,  -- AC
  ⟨"LDA", .ABSOL, 4, 0⟩,  -- AD
  ⟨"LDX", .ABSOL, 4, 0⟩,  -- AE
  ⟨"???", .IMMED, 0, BAD⟩]  -- AF

/-- Rows 0xB0-0xBF of `g_opcode_table`. -/
def g_opcode_table_0B : List opcode_t := [
  ⟨"BCS", .RELAT, 2, CYCLE_PAGE ||| CYCLE_BRANCH⟩,  -- B0
  ⟨"LDA", .ININD, 5, CYCLE_PAGE⟩,  -- B1
  ⟨"???", .IMMED, 0, BAD⟩,  -- B2
  ⟨"???", .IMMED, 0, BAD⟩,  -- B3
  ⟨"LDY", .ZEPIX, 4, 0⟩,  -- B4
  ⟨"LDA", .ZEPIX, 4, 0⟩,  -- B5
  ⟨"LDX", .ZEPIY, 4, 0⟩,  -- B6
  ⟨"???", .IMMED, 0, BAD⟩,  -- B7
  ⟨"CLV", .IMPLI, 2, 0⟩,  -- B8
  ⟨"LDA", .ABSIY, 4, CYCLE_PAGE⟩,  -- B9
  ⟨"TSX", .IMPLI, 2, 0⟩,  -- BA
  ⟨"???", .IMMED, 0, BAD⟩,  -- BB
  ⟨"LDY", .ABSIX, 4, CYCLE_PAGE⟩,  -- BC
  ⟨"LDA", .ABSIX, 4, CYCLE_PAGE⟩,  -- BD
  ⟨"LDX", .ABSIY, 4, CYCLE_PAGE⟩,  -- BE
  ⟨"???", .IMMED, 0, BAD⟩]  -- BF

/-- Rows 0xC0-0xCF of `g_opcode_table`. -/
def g_opcode_table_0C : List opcode_t := [
  ⟨"CPY", .IMMED, 2, 0⟩,  -- C0
  ⟨"CMP", .INDIN, 6, 0⟩,  -- C1
  ⟨"???", .IMMED, 0, BAD⟩,  -- C2
  ⟨"???", .IMMED, 0, BAD⟩,  -- C3
  ⟨"CPY", .ZEROP, 3, 0⟩,  -- C4
  ⟨"CMP", .ZEROP, 3, 0⟩,  -- C5
  ⟨"DEC", .ZEROP, 5, 0⟩,  -- C6
  ⟨"???", .IMMED, 0, BAD⟩,  -- C7
  ⟨"INY", .IMPLI, 2, 0⟩,  -- C8
  ⟨"CMP", .IMMED, 2, 0⟩,  -- C9
  ⟨"DEX", .IMPLI, 2, 0⟩,  -- CA
  ⟨"???", .IMMED, 0, BAD⟩,  -- CB
  ⟨"CPY", .ABSOL, 4, 0⟩,  -- CC
  ⟨"CMP", .ABSOL, 4, 0⟩,  -- CD
  ⟨"DEC", .ABSOL, 6, 0⟩,  -- CE
  ⟨"???", .IMMED, 0, BAD⟩]  -- CF

/-- Rows 0xD0-0xDF of `g_opcode_table`. -/
def g_opcode_table_0D : List opcode_t := [
  ⟨"BNE", .RELAT, 2, CYCLE_PAGE ||| CYCLE_BRANCH⟩,  -- D0
  ⟨"CMP", .ININD, 5, CYCLE_PAGE⟩,  -- D1
  ⟨"???", .IMMED, 0, BAD⟩,  -- D2
  ⟨"???", .IMMED, 0, BAD⟩,  -- D3
  ⟨"???", .IMMED, 0, BAD⟩,  -- D4
  ⟨"CMP", .ZEPIX, 4, 0⟩,  -- D5
  ⟨"DEC", .ZEPIX, 6, 0⟩,  -- D6
  ⟨"???", .IMMED, 0, BAD⟩,  -- D7
  ⟨"CLD", .IMPLI, 2, 0⟩,  -- D8
  ⟨"CMP", .ABSIY, 4, CYCLE_PAGE⟩,  -- D9
  ⟨"???", .IMMED, 0, BAD⟩,  -- DA
  ⟨"???", .IMMED, 0, BAD⟩,  -- DB
  ⟨"???", .IMMED, 0, BAD⟩,  -- DC
  ⟨"CMP", .ABSIX, 4, CYCLE_PAGE⟩,  -- DD
  ⟨"DEC", .ABSIX, 7, 0⟩,  -- DE
  ⟨"???", .IMMED, 0, BAD⟩]  -- DF

/-- Rows 0xE0-0xEF of `g_opcode_table`. -/
def g_opcode_table_0E : List opcode_t := [
  ⟨"CPX", .IMMED, 2, 0⟩,  -- E0
  ⟨"SBC", .INDIN, 6, 0⟩,  -- E1
  ⟨"???", .IMMED, 0, BAD⟩,  -- E2
  ⟨"???", .IMMED, 0, BAD⟩,  -- E3
  ⟨"CPX", .ZEROP, 3, 0⟩,  -- E4
  ⟨"SBC", .ZEROP, 3, 0⟩,  -- E5
  ⟨"INC", .ZEROP, 5, 0⟩,  -- E6
  ⟨"???", .IMMED, 0, BAD⟩,  -- E7
  ⟨"INX", .IMPLI, 2, 0⟩,  -- E8
  ⟨"SBC", .IMMED, 2, 0⟩,  -- E9
  ⟨"NOP", .IMPLI, 2, 0⟩,  -- EA
  ⟨"???", .IMMED, 0, BAD⟩,  -- EB
  ⟨"CPX", .ABSOL, 4, 0⟩,  -- EC
  ⟨"SBC", .ABSOL, 4, 0⟩,  -- ED
  ⟨"INC", .ABSOL, 6, 0⟩,  -- EE
  ⟨"???", .IMMED, 0, BAD⟩]  -- EF

/-- Rows 0xF0-0xFF of `g_opcode_table`. -/
def g_opcode_table_0F : List opcode_t := [
  ⟨"BEQ", .RELAT, 2, CYCLE_PAGE ||| CYCLE_BRANCH⟩,  -- F0
  ⟨"SBC", .ININD, 5, CYCLE_PAGE⟩,  -- F1
  ⟨"???", .IMMED, 0, BAD⟩,  -- F2
  ⟨"???", .IMMED, 0, BAD⟩,  -- F3
  ⟨"???", .IMMED, 0, BAD⟩,  -- F4
  ⟨"SBC", .ZEPIX, 4, 0⟩,  -- F5
  ⟨"INC", .ZEPIX, 6, 0⟩,  -- F6
  ⟨"???", .IMMED, 0, BAD⟩,  -- F7
  ⟨"SED", .IMPLI, 2, 0⟩,  -- F8
  ⟨"SBC", .ABSIY, 4, CYCLE_PAGE⟩,  -- F9
  ⟨"???", .IMMED, 0, BAD⟩,  -- FA
  ⟨"???", .IMMED, 0, BAD⟩,  -- FB
  ⟨"???", .IMMED, 0, BAD⟩,  -- FC
  ⟨"SBC", .ABSIX, 4, CYCLE_PAGE⟩,  -- FD
  ⟨"INC", .ABSIX, 7, 0⟩,  -- FE
  ⟨"???", .IMMED, 0, BAD⟩]  -- FF

/-- The 256-entry opcode table (`g_opcode_table` in the source), split into
sixteen 16-row pieces only to keep elaboration fast; the illegal entries
carry addressing value 0, i.e. `IMMED`, as in the C. -/
def g_opcode_table : List opcode_t :=
  g_opcode_table_00 ++ g_opcode_table_01 ++ g_opcode_table_02 ++ g_opcode_table_03 ++
  g_opcode_table_04 ++ g_opcode_table_05 ++ g_opcode_table_06 ++ g_opcode_table_07 ++
  g_opcode_table_08 ++ g_opcode_table_09 ++ g_opcode_table_0A ++ g_opcode_table_0B ++
  g_opcode_table_0C ++ g_opcode_table_0D ++ g_opcode_table_0E ++ g_opcode_table_0F


/-- Table lookup, the `lookup`/`classify` operation of the spec; the C code
indexes `g_opcode_table` with a `uint8_t`, which is always in range, so the
default entry is never used for byte inputs. -/
def classify (b : Nat) : opcode_t :=
  g_opcode_table.getD b ⟨"???", .IMMED, 0, BAD⟩

/-- One uppercase hex digit, as produced by printf %X. -/
def hex_digit (n : Nat) : Char :=
  if n < 10 then Char.ofNat (48 + n) else Char.ofNat (55 + n)

/-- Two-digit uppercase hex of a byte, as produced by printf %02X. -/
def hex2 (n : Nat) : String :=
  String.mk [hex_digit (n / 16 % 16), hex_digit (n % 16)]

/-- Four-digit uppercase hex of a 16-bit word, as produced by printf %04X;
the high part is `HIGH_PART(val) = (val >> 8) & 0xFF`. -/
def hex4 (n : Nat) : String :=
  hex2 (n / 256 % 256) ++ hex2 (n % 256)

/-- A cycle-count annotation: a single count (printf " Cycles: %d") or a
best/worst pair (printf " Cycles: %d/%d"). -/
inductive CycleAnn : Type
  | one (n : Nat)
  | two (lo hi : Nat)
  deriving DecidableEq, Repr

/-- Rendering of a cycle annotation as the appended comment text. -/
def CycleAnn.render : CycleAnn → String
  | .one n => " Cycles: " ++ toString n
  | .two lo hi => " Cycles: " ++ toString lo ++ "/" ++ toString hi

/-- `append_cycle` of the source: computes the cycle annotation for opcode
byte `entry`, where `pc` is the value the caller passes as third argument
(`*pc + 1` at the call site) and `new_pc` is `word_operand`. -/
def append_cycle (entry pc new_pc : Nat) : CycleAnn :=
  let cycles := (classify entry).cycles
  let exceptions := (classify entry).cycles_exceptions &&& CYCLE_MASK
  let crosses_page : Bool := (pc &&& 0xff00) != (new_pc &&& 0xff00)
  if exceptions ≠ 0 then
    if exceptions &&& CYCLE_BRANCH ≠ 0 ∧ exceptions &&& CYCLE_PAGE ≠ 0 then
      -- branch case: page crossing determined statically
      if crosses_page then
        CycleAnn.two (cycles + 1) (cycles + 2)
      else
        CycleAnn.two cycles (cycles + 1)
    else
      -- one exception: two times, whether a page is crossed is unknown
      CycleAnn.two cycles (cycles + 1)
  else
    CycleAnn.one cycles

/-- The Relative-mode target computation of `disassemble`:
`word_operand = current_addr + 2`, then for a negative displacement
`word_operand -= (~byte_operand & 0x7F) + 1` (for a byte,
`~byte_operand & 0x7F = (255 - byte_operand) & 0x7F`), else
`word_operand += byte_operand & 0x7F`; all in wrapping `uint16_t`. -/
def relat_target (current_addr byte_operand : Nat) : Nat :=
  let base := (current_addr + 2) % 65536
  if byte_operand > 0x7F then
    (base + 65536 - (((255 - byte_operand) &&& 0x7F) + 1)) % 65536
  else
    (base + (byte_operand &&& 0x7F)) % 65536

/-- The parts of one output line of `disassemble` that the core computes
(hex-dump prefixes and column padding of the final sprintf are layout only
and omitted): the rendered instruction text, the trailing invalid-opcode
marker if any, the advanced program counter, the final `word_operand`
value, and the cycle annotation if cycle counting is on. -/
structure DecodedLine where
  opcode_repr : String
  marker : String
  next_pc : Nat
  word_operand : Nat
  cycles : Option CycleAnn
  deriving DecidableEq, Repr

/-- `disassemble` of the source: decode the single instruction at `pc`.
`buffer` gives the byte at each index (the C buffer is 65536+4 bytes of
zero-initialized memory, so reads past `0xFFFF` see the padding). -/
def disassemble (buffer : Nat → Nat) (cycle_counting : Bool) (pc : Nat) :
    DecodedLine :=
  let current_addr := pc % 65536
  let opcode := buffer current_addr % 256
  let entry := classify opcode
  let mnemonic := entry.mnemonic
  let pc1 := (current_addr + 1) % 65536  -- instructions are always at least 1 byte
  if entry.cycles_exceptions &&& BAD ≠ 0 then
    -- opcode not found: terminate early
    { opcode_repr := ".byte $" ++ hex2 opcode
      marker := " INVALID OPCODE !!!"
      next_pc := pc1
      word_operand := 0
      cycles := none }
  else
    let r : String × Nat × Nat :=
      match entry.addressing with
      | .IMMED =>
        let byte_operand := buffer pc1 % 256
        (mnemonic ++ " #$" ++ hex2 byte_operand, (pc1 + 1) % 65536, 0)
      | .ABSOL =>
        let word_operand := buffer pc1 % 256 + 256 * (buffer (pc1 + 1) % 256)
        (mnemonic ++ " $" ++ hex4 word_operand, (pc1 + 2) % 65536, word_operand)
      | .ZEROP =>
        let byte_operand := buffer pc1 % 256
        (mnemonic ++ " $" ++ hex2 byte_operand, (pc1 + 1) % 65536, 0)
      | .IMPLI => (mnemonic, pc1, 0)
      | .INDIA =>
        let word_operand := buffer pc1 % 256 + 256 * (buffer (pc1 + 1) % 256)
        (mnemonic ++ " ($" ++ hex4 word_operand ++ ")", (pc1 + 2) % 65536,
          word_operand)
      | .ABSIX =>
        let word_operand := buffer pc1 % 256 + 256 * (buffer (pc1 + 1) % 256)
        (mnemonic ++ " $" ++ hex4 word_operand ++ ",X", (pc1 + 2) % 65536,
          word_operand)
      | .ABSIY =>
        let word_operand := buffer pc1 % 256 + 256 * (buffer (pc1 + 1) % 256)
        (mnemonic ++ " $" ++ hex4 word_operand ++ ",Y", (pc1 + 2) % 65536,
          word_operand)
      | .ZEPIX =>
        let byte_operand := buffer pc1 % 256
        (mnemonic ++ " $" ++ hex2 byte_operand ++ ",X", (pc1 + 1) % 65536, 0)
      | .ZEPIY =>
        let byte_operand := buffer pc1 % 256
        (mnemonic ++ " $" ++ hex2 byte_operand ++ ",Y", (pc1 + 1) % 65536, 0)
      | .INDIN =>
        let byte_operand := buffer pc1 % 256
        (mnemonic ++ " ($" ++ hex2 byte_operand ++ ",X)", (pc1 + 1) % 65536, 0)
      | .ININD =>
        let byte_operand := buffer pc1 % 256
        (mnemonic ++ " ($" ++ hex2 byte_operand ++ "),Y", (pc1 + 1) % 65536, 0)
      | .RELAT =>
        let byte_operand := buffer pc1 % 256
        let w := relat_target current_addr byte_operand
        (mnemonic ++ " $" ++ hex4 w, (pc1 + 1) % 65536, w)
      | .ACCUM => (mnemonic ++ " A", pc1, 0)
    { opcode_repr := r.1
      marker := ""
      next_pc := r.2.1
      word_operand := r.2.2
      cycles :=
        if cycle_counting then
          some (append_cycle opcode ((r.2.1 + 1) % 65536) r.2.2)
        else none }

/-- Operand byte width as the spec derives it from the addressing mode. -/
def operand_width : addressing_mode_e → Nat
  | .IMPLI | .ACCUM => 0
  | .IMMED | .ZEROP | .ZEPIX | .ZEPIY | .INDIN | .ININD | .RELAT => 1
  | .ABSOL | .INDIA | .ABSIX | .ABSIY => 2

/-- Encoded length of the instruction starting with opcode byte `b`:
1 opcode byte plus the operand width, or 1 for an invalid opcode. -/
def instr_length (b : Nat) : Nat :=
  if (classify b).cycles_exceptions &&& BAD ≠ 0 then 1
  else 1 + operand_width (classify b).addressing

/-- An operand byte as a signed two's-complement value in [-128, 127]. -/
def sign8 (b : Nat) : Int :=
  if b < 128 then (b : Int) else (b : Int) - 256

/-- Part 0 of the canonical opcode rows. -/
def canonical_rows_0 : List (Nat × String × addressing_mode_e) := [
  (0x00, "BRK", .IMPLI),
  (0x01, "ORA", .INDIN),
  (0x05, "ORA", .ZEROP),
  (0x06, "ASL", .ZEROP),
  (0x08, "PHP", .IMPLI),
  (0x09, "ORA", .IMMED),
  (0x0A, "ASL", .ACCUM),
  (0x0D, "ORA", .ABSOL),
  (0x0E, "ASL", .ABSOL),
  (0x10, "BPL", .RELAT),
  (0x11, "ORA", .ININD),
  (0x15, "ORA", .ZEPIX),
  (0x16, "ASL", .ZEPIX),
  (0x18, "CLC", .IMPLI),
  (0x19, "ORA", .ABSIY),
  (0x1D, "ORA", .ABSIX),
  (0x1E, "ASL", .ABSIX),
  (0x20, "JSR", .ABSOL),
  (0x21, "AND", .INDIN)]

/-- Part 1 of the canonical opcode rows. -/
def canonical_rows_1 : List (Nat × String × addressing_mode_e) := [
  (0x24, "BIT", .ZEROP),
  (0x25, "AND", .ZEROP),
  (0x26, "ROL", .ZEROP),
  (0x28, "PLP", .IMPLI),
  (0x29, "AND", .IMMED),
  (0x2A, "ROL", .ACCUM),
  (0x2C, "BIT", .ABSOL),
  (0x2D, "AND", .ABSOL),
  (0x2E, "ROL", .ABSOL),
  (0x30, "BMI", .RELAT),
  (0x31, "AND", .ININD),
  (0x35, "AND", .ZEPIX),
  (0x36, "ROL", .ZEPIX),
  (0x38, "SEC", .IMPLI),
  (0x39, "AND", .ABSIY),
  (0x3D, "AND", .ABSIX),
  (0x3E, "ROL", .ABSIX),
  (0x40, "RTI", .IMPLI),
  (0x41, "EOR", .INDIN)]

/-- Part 2 of the canonical opcode rows. -/
def canonical_rows_2 : List (Nat × String × addressing_mode_e) := [
  (0x45, "EOR", .ZEROP),
  (0x46, "LSR", .ZEROP),
  (0x48, "PHA", .IMPLI),
  (0x49, "EOR", .IMMED),
  (0x4A, "LSR", .ACCUM),
  (0x4C, "JMP", .ABSOL),
  (0x4D, "EOR", .ABSOL),
  (0x4E, "LSR", .ABSOL),
  (0x50, "BVC", .RELAT),
  (0x51, "EOR", .ININD),
  (0x55, "EOR", .ZEPIX),
  (0x56, "LSR", .ZEPIX),
  (0x58, "CLI", .IMPLI),
  (0x59, "EOR", .ABSIY),
  (0x5D, "EOR", .ABSIX),
  (0x5E, "LSR", .ABSIX),
  (0x60, "RTS", .IMPLI),
  (0x61, "ADC", .INDIN),
  (0x65, "ADC", .ZEROP)]

/-- Part 3 of the canonical opcode rows. -/
def canonical_rows_3 : List (Nat × String × addressing_mode_e) := [
  (0x66, "ROR", .ZEROP),
  (0x68, "PLA", .IMPLI),
  (0x69, "ADC", .IMMED),
  (0x6A, "ROR", .ACCUM),
  (0x6C, "JMP", .INDIA),
  (0x6D, "ADC", .ABSOL),
  (0x6E, "ROR", .ABSOL),
  (0x70, "BVS", .RELAT),
  (0x71, "ADC", .ININD),
  (0x75, "ADC", .ZEPIX),
  (0x76, "ROR", .ZEPIX),
  (0x78, "SEI", .IMPLI),
  (0x79, "ADC", .ABSIY),
  (0x7D, "ADC", .ABSIX),
  (0x7E, "ROR", .ABSIX),
  (0x81, "STA", .INDIN),
  (0x84, "STY", .ZEROP),
  (0x85, "STA", .ZEROP),
  (0x86, "STX", .ZEROP)]

/-- Part 4 of the canonical opcode rows. -/
def canonical_rows_4 : List (Nat × String × addressing_mode_e) := [
  (0x88, "DEY", .IMPLI),
  (0x8A, "TXA", .IMPLI),
  (0x8C, "STY", .ABSOL),
  (0x8D, "STA", .ABSOL),
  (0x8E, "STX", .ABSOL),
  (0x90, "BCC", .RELAT),
  (0x91, "STA", .ININD),
  (0x94, "STY", .ZEPIX),
  (0x95, "STA", .ZEPIX),
  (0x96, "STX", .ZEPIY),
  (0x98, "TYA", .IMPLI),
  (0x99, "STA", .ABSIY),
  (0x9A, "TXS", .IMPLI),
  (0x9D, "STA", .ABSIX),
  (0xA0, "LDY", .IMMED),
  (0xA1, "LDA", .INDIN),
  (0xA2, "LDX", .IMMED),
  (0xA4, "LDY", .ZEROP),
  (0xA5, "LDA", .ZEROP)]

/-- Part 5 of the canonical opcode rows. -/
def canonical_rows_5 : List (Nat × String × addressing_mode_e) := [
  (0xA6, "LDX", .ZEROP),
  (0xA8, "TAY", .IMPLI),
  (0xA9, "LDA", .IMMED),
  (0xAA, "TAX", .IMPLI),
  (0xAC, "LDY", .ABSOL),
  (0xAD, "LDA", .ABSOL),
  (0xAE, "LDX", .ABSOL),
  (0xB0, "BCS", .RELAT),
  (0xB1, "LDA", .ININD),
  (0xB4, "LDY", .ZEPIX),
  (0xB5, "LDA", .ZEPIX),
  (0xB6, "LDX", .ZEPIY),
  (0xB8, "CLV", .IMPLI),
  (0xB9, "LDA", .ABSIY),
  (0xBA, "TSX", .IMPLI),
  (0xBC, "LDY", .ABSIX),
  (0xBD, "LDA", .ABSIX),
  (0xBE, "LDX", .ABSIY),
  (0xC0, "CPY", .IMMED)]

/-- Part 6 of the canonical opcode rows. -/
def canonical_rows_6 : List (Nat × String × addressing_mode_e) := [
  (0xC1, "CMP", .INDIN),
  (0xC4, "CPY", .ZEROP),
  (0xC5, "CMP", .ZEROP),
  (0xC6, "DEC", .ZEROP),
  (0xC8, "INY", .IMPLI),
  (0xC9, "CMP", .IMMED),
  (0xCA, "DEX", .IMPLI),
  (0xCC, "CPY", .ABSOL),
  (0xCD, "CMP", .ABSOL),
  (0xCE, "DEC", .ABSOL),
  (0xD0, "BNE", .RELAT),
  (0xD1, "CMP", .ININD),
  (0xD5, "CMP", .ZEPIX),
  (0xD6, "DEC", .ZEPIX),
  (0xD8, "CLD", .IMPLI),
  (0xD9, "CMP", .ABSIY),
  (0xDD, "CMP", .ABSIX),
  (0xDE, "DEC", .ABSIX),
  (0xE0, "CPX", .IMMED)]

/-- Part 7 of the canonical opcode rows. -/
def canonical_rows_7 : List (Nat × String × addressing_mode_e) := [
  (0xE1, "SBC", .INDIN),
  (0xE4, "CPX", .ZEROP),
  (0xE5, "SBC", .ZEROP),
  (0xE6, "INC", .ZEROP),
  (0xE8, "INX", .IMPLI),
  (0xE9, "SBC", .IMMED),
  (0xEA, "NOP", .IMPLI),
  (0xEC, "CPX", .ABSOL),
  (0xED, "SBC", .ABSOL),
  (0xEE, "INC", .ABSOL),
  (0xF0, "BEQ", .RELAT),
  (0xF1, "SBC", .ININD),
  (0xF5, "SBC", .ZEPIX),
  (0xF6, "INC", .ZEPIX),
  (0xF8, "SED", .IMPLI),
  (0xF9, "SBC", .ABSIY),
  (0xFD, "SBC", .ABSIX),
  (0xFE, "INC", .ABSIX)]

/-- The canonical 6502 encoding table as rows (opcode byte, mnemonic,
addressing mode) of each of the 151 documented opcodes, transcribed
independently of `g_opcode_table` from the standard 6502 instruction-set
reference, split into pieces only to keep elaboration fast. -/
def canonical_rows : List (Nat × String × addressing_mode_e) :=
  canonical_rows_0 ++ canonical_rows_1 ++ canonical_rows_2 ++ canonical_rows_3 ++ canonical_rows_4 ++ canonical_rows_5 ++ canonical_rows_6 ++ canonical_rows_7

/-- The canonical 6502 encoding table as a lookup: the mnemonic and
addressing mode of a documented opcode byte, `none` for illegal bytes. -/
def canonical6502 (b : Nat) : Option (String × addressing_mode_e) :=
  Option.map Prod.snd (canonical_rows.find? (fun r => r.1 == b))


/-! ### Helper lemmas -/

set_option maxRecDepth 100000

theorem land127_of_lt (x : Nat) (hx : x < 256) : x &&& 127 = x % 128 := by
  have h : ∀ y : Fin 256, (y : Nat) &&& 127 = (y : Nat) % 128 := by decide
  exact h ⟨x, hx⟩

theorem relat_target_eq_sign8 (ca b : Nat) (hca : ca < 65536) (hb : b < 256) :
    (relat_target ca b : Int) = ((ca : Int) + 2 + sign8 b) % 65536 := by
  have h1 : b &&& 127 = b % 128 := land127_of_lt b hb
  have h2 : (255 - b) &&& 127 = (255 - b) % 128 := land127_of_lt _ (by omega)
  simp only [relat_target, sign8, h1, h2]
  split_ifs <;> omega

theorem relat_target_lt (ca b : Nat) : relat_target ca b < 65536 := by
  simp only [relat_target]
  split_ifs <;> omega

theorem disassemble_next_pc (buffer : Nat → Nat) (cc : Bool) (pc : Nat)
    (hpc : pc < 65536) :
    (disassemble buffer cc pc).next_pc =
      (pc + instr_length (buffer pc % 256)) % 65536 := by
  have hm : pc % 65536 = pc := Nat.mod_eq_of_lt hpc
  by_cases hv : (classify (buffer pc % 256)).cycles_exceptions &&& BAD = 0
  · cases h2 : (classify (buffer pc % 256)).addressing <;>
      simp [disassemble, instr_length, operand_width, hm, hv, h2] <;> omega
  · simp [disassemble, instr_length, hm, hv]

theorem disassemble_word_lt (buffer : Nat → Nat) (cc : Bool) (pc : Nat) :
    (disassemble buffer cc pc).word_operand < 65536 := by
  by_cases hv : (classify (buffer (pc % 65536) % 256)).cycles_exceptions &&& BAD = 0
  · cases h2 : (classify (buffer (pc % 65536) % 256)).addressing <;>
      simp [disassemble, hv, h2, relat_target_lt] <;> omega
  · simp [disassemble, hv]

/-! ### Claim theorems -/

/-- Input buffer of the C1 failing case: BEQ with operand 0x00 at 0x80FD. -/
def buf_beq_pagewrap : Nat → Nat := fun i => if i = 0x80FD then 0xF0 else 0

/-- C1: the claim (branch page crossing judged against the high byte of
offset+2) fails on the code. At offset 0x80FD, BEQ with operand 0x00
resolves target 0x80FF, whose high byte 0x80 equals that of
offset+2 = 0x80FF, so per the claim the annotation would be 2/3; the code
passes *pc + 1 = offset+3 = 0x8100 to `append_cycle`, sees different high
bytes, and emits 3/4. -/
theorem branch_page_cross_off_by_one :
    (disassemble buf_beq_pagewrap true 0x80FD).word_operand = 0x80FF ∧
    (disassemble buf_beq_pagewrap true 0x80FD).word_operand / 256 % 256 =
      (0x80FD + 2) / 256 % 256 ∧
    (disassemble buf_beq_pagewrap true 0x80FD).cycles = some (CycleAnn.two 3 4) ∧
    ¬ (disassemble buf_beq_pagewrap true 0x80FD).cycles = some (CycleAnn.two 2 3) := by
  decide

/-- C2: for a valid Relative-mode instruction, the resolved target equals
(offset + 2) plus the operand byte read as a signed two's-complement value
in [-128, 127], as a 16-bit (mod 65536) address. -/
theorem relative_target_resolution (buffer : Nat → Nat) (cc : Bool) (pc : Nat)
    (hpc : pc < 65536)
    (hv : (classify (buffer pc % 256)).cycles_exceptions &&& BAD = 0)
    (hrel : (classify (buffer pc % 256)).addressing = addressing_mode_e.RELAT) :
    ((disassemble buffer cc pc).word_operand : Int) =
      ((pc : Int) + 2 + sign8 (buffer ((pc + 1) % 65536) % 256)) % 65536 := by
  have hm : pc % 65536 = pc := Nat.mod_eq_of_lt hpc
  have hb : buffer ((pc + 1) % 65536) % 256 < 256 := Nat.mod_lt _ (by omega)
  simp [disassemble, hm, hv, hrel]
  exact relat_target_eq_sign8 pc _ hpc hb

/-- Witness input for C2: opcode 0x90 (BCC) with operand byte 0xFE at
offset 0x8000. -/
def buf_bcc : Nat → Nat := fun i =>
  if i = 0x8000 then 0x90 else if i = 0x8001 then 0xFE else 0

theorem relative_target_resolution_witness :
    ((disassemble buf_bcc true 0x8000).word_operand : Int) =
      ((0x8000 : Int) + 2 + sign8 (buf_bcc ((0x8000 + 1) % 65536) % 256)) % 65536 ∧
    (disassemble buf_bcc true 0x8000).word_operand = 0x8000 :=
  ⟨relative_target_resolution buf_bcc true 0x8000 (by decide) (by decide) (by decide),
   by decide⟩

/-- C3: for a valid opcode, decode advances the cursor by exactly
1 + operand width, the width being a function of the addressing mode
alone (0 for Implied/Accumulator, 1 for the byte-operand modes,
2 for the word-operand modes), with 16-bit cursor arithmetic. -/
theorem decode_advances_by_mode_width (buffer : Nat → Nat) (cc : Bool) (pc : Nat)
    (hpc : pc < 65536)
    (hv : (classify (buffer pc % 256)).cycles_exceptions &&& BAD = 0) :
    (disassemble buffer cc pc).next_pc =
      (pc + (1 + operand_width (classify (buffer pc % 256)).addressing)) % 65536 := by
  have h := disassemble_next_pc buffer cc pc hpc
  simp only [instr_length, hv] at h
  simpa using h

def buf_nop : Nat → Nat := fun _ => 0xEA

def buf_lda_imm : Nat → Nat := fun _ => 0xA9

def buf_lda_abs : Nat → Nat := fun _ => 0xAD

theorem decode_advances_by_mode_width_witness :
    ((disassemble buf_nop true 0).next_pc =
      (0 + (1 + operand_width (classify (buf_nop 0 % 256)).addressing)) % 65536) ∧
    ((disassemble buf_lda_imm true 0).next_pc =
      (0 + (1 + operand_width (classify (buf_lda_imm 0 % 256)).addressing)) % 65536) ∧
    ((disassemble buf_lda_abs true 0).next_pc =
      (0 + (1 + operand_width (classify (buf_lda_abs 0 % 256)).addressing)) % 65536) :=
  ⟨decode_advances_by_mode_width buf_nop true 0 (by decide) (by decide),
   decode_advances_by_mode_width buf_lda_imm true 0 (by decide) (by decide),
   decode_advances_by_mode_width buf_lda_abs true 0 (by decide) (by decide)⟩

/-- C4: for an invalid table entry the decoder emits the raw-byte
pseudo-instruction ".byte $XX" with the invalid-opcode marker, consumes no
operand bytes (cursor advances by exactly 1), emits no cycle annotation,
and returns normally so decoding can continue at the next byte. -/
theorem invalid_opcode_raw_byte (buffer : Nat → Nat) (cc : Bool) (pc : Nat)
    (hpc : pc < 65536)
    (hbad : (classify (buffer pc % 256)).cycles_exceptions &&& BAD ≠ 0) :
    disassemble buffer cc pc =
      { opcode_repr := ".byte $" ++ hex2 (buffer pc % 256)
        marker := " INVALID OPCODE !!!"
        next_pc := (pc + 1) % 65536
        word_operand := 0
        cycles := none } := by
  have hm : pc % 65536 = pc := Nat.mod_eq_of_lt hpc
  simp [disassemble, hm, hbad]

def buf_bad : Nat → Nat := fun _ => 0x02

theorem invalid_opcode_raw_byte_witness :
    disassemble buf_bad true 0 =
      { opcode_repr := ".byte $" ++ hex2 (buf_bad 0 % 256)
        marker := " INVALID OPCODE !!!"
        next_pc := (0 + 1) % 65536
        word_operand := 0
        cycles := none } :=
  invalid_opcode_raw_byte buf_bad true 0 (by decide) (by decide)

/-- C5: an opcode whose entry has exactly one of the two penalty flags is
annotated base/base+1 regardless of the pc and target arguments, and in
particular opcode 0xBD is always annotated 4/5. -/
theorem single_flag_fixed_annotation (b pc new_pc : Nat) (buffer : Nat → Nat)
    (offset : Nat)
    (h : (classify b).cycles_exceptions &&& CYCLE_MASK = CYCLE_PAGE ∨
         (classify b).cycles_exceptions &&& CYCLE_MASK = CYCLE_BRANCH)
    (hoff : offset < 65536) (hop : buffer offset % 256 = 0xBD) :
    append_cycle b pc new_pc =
      CycleAnn.two (classify b).cycles ((classify b).cycles + 1) ∧
    (disassemble buffer true offset).cycles = some (CycleAnn.two 4 5) := by
  constructor
  · rcases h with h | h <;>
      · simp only [append_cycle]
        rw [h]
        simp [CYCLE_PAGE, CYCLE_BRANCH]
  · have hm : offset % 65536 = offset := Nat.mod_eq_of_lt hoff
    have hc : classify 0xBD = ⟨"LDA", .ABSIX, 4, 1⟩ := by decide
    have ha : ∀ p n, append_cycle 0xBD p n = CycleAnn.two 4 5 := by
      intro p n
      simp [append_cycle, hc, CYCLE_MASK, CYCLE_PAGE, CYCLE_BRANCH]
    simp [disassemble, BAD, hm, hop, hc, ha]

def buf_lda_absx : Nat → Nat := fun _ => 0xBD

theorem single_flag_fixed_annotation_witness :
    append_cycle 0xBD 0x1234 0x5678 =
      CycleAnn.two (classify 0xBD).cycles ((classify 0xBD).cycles + 1) ∧
    (disassemble buf_lda_absx true 0x100).cycles = some (CycleAnn.two 4 5) :=
  single_flag_fixed_annotation 0xBD 0x1234 0x5678 buf_lda_absx 0x100
    (Or.inl (by decide)) (by decide) (by decide)

/-- C6: an opcode whose entry has no penalty flags is annotated with the
single number base_cycles, and in particular opcode 0x69 (ADC immediate)
is annotated 2 at any offset. -/
theorem no_flags_single_annotation (b pc new_pc : Nat) (buffer : Nat → Nat)
    (offset : Nat)
    (h : (classify b).cycles_exceptions &&& CYCLE_MASK = 0)
    (hoff : offset < 65536) (hop : buffer offset % 256 = 0x69) :
    append_cycle b pc new_pc = CycleAnn.one (classify b).cycles ∧
    (disassemble buffer true offset).cycles = some (CycleAnn.one 2) := by
  constructor
  · simp only [append_cycle]
    rw [h]
    simp
  · have hm : offset % 65536 = offset := Nat.mod_eq_of_lt hoff
    have hc : classify 0x69 = ⟨"ADC", .IMMED, 2, 0⟩ := by decide
    have ha : ∀ p n, append_cycle 0x69 p n = CycleAnn.one 2 := by
      intro p n
      simp [append_cycle, hc, CYCLE_MASK]
    simp [disassemble, BAD, hm, hop, hc, ha]

def buf_adc_imm : Nat → Nat := fun _ => 0x69

theorem no_flags_single_annotation_witness :
    append_cycle 0x69 3 0 = CycleAnn.one (classify 0x69).cycles ∧
    (disassemble buf_adc_imm true 0x200).cycles = some (CycleAnn.one 2) :=
  no_flags_single_annotation 0x69 3 0 buf_adc_imm 0x200
    (by decide) (by decide) (by decide)

/-- C7: the opcode table is total over all 256 byte values (classify never
fails; it is a pure function of the fixed table), and on every byte the
valid entries and their mnemonic/addressing-mode pairing agree exactly
with the canonical 6502 encoding table. -/
theorem classify_total_and_canonical :
    g_opcode_table.length = 256 ∧
    ∀ b : Fin 256,
      canonical6502 b =
        (if (classify b).cycles_exceptions &&& BAD = 0 then
          some ((classify b).mnemonic, (classify b).addressing)
        else none) :=
  ⟨by decide, by decide⟩

/-- C8: the opcode-table entries carrying both penalty flags are exactly
the eight conditional branches 0x10, 0x30, 0x50, 0x70, 0x90, 0xB0, 0xD0,
0xF0, all of addressing mode Relative; hence whenever the branch case of
the cycle annotation runs, the decoded word_operand is the resolved
Relative target. -/
theorem both_flags_only_branches (buffer : Nat → Nat) (offset : Nat)
    (hoff : offset < 65536)
    (hp : (classify (buffer offset % 256)).cycles_exceptions &&& CYCLE_PAGE ≠ 0)
    (hb : (classify (buffer offset % 256)).cycles_exceptions &&& CYCLE_BRANCH ≠ 0) :
    ((List.range 256).filter
        (fun b => ((classify b).cycles_exceptions &&& CYCLE_PAGE != 0) &&
                  ((classify b).cycles_exceptions &&& CYCLE_BRANCH != 0))
      = [0x10, 0x30, 0x50, 0x70, 0x90, 0xB0, 0xD0, 0xF0]) ∧
    ([0x10, 0x30, 0x50, 0x70, 0x90, 0xB0, 0xD0, 0xF0].all
        (fun b => (classify b).addressing == addressing_mode_e.RELAT)) = true ∧
    (classify (buffer offset % 256)).addressing = addressing_mode_e.RELAT ∧
    (disassemble buffer true offset).word_operand =
      relat_target offset (buffer ((offset + 1) % 65536) % 256) := by
  have hlt : buffer offset % 256 < 256 := Nat.mod_lt _ (by omega)
  have key : ∀ y : Fin 256,
      (classify y).cycles_exceptions &&& CYCLE_PAGE ≠ 0 →
      (classify y).cycles_exceptions &&& CYCLE_BRANCH ≠ 0 →
      (classify y).addressing = addressing_mode_e.RELAT ∧
      (classify y).cycles_exceptions &&& BAD = 0 := by decide
  have hk := key ⟨buffer offset % 256, hlt⟩ hp hb
  refine ⟨by decide, by decide, hk.1, ?_⟩
  have hm : offset % 65536 = offset := Nat.mod_eq_of_lt hoff
  simp [disassemble, hm, hk.1, hk.2]

/-- Witness input for C8: BEQ with operand 0x05 at 0x1000. -/
def buf_beq : Nat → Nat := fun i =>
  if i = 0x1000 then 0xF0 else if i = 0x1001 then 0x05 else 0

theorem both_flags_only_branches_witness :
    ((List.range 256).filter
        (fun b => ((classify b).cycles_exceptions &&& CYCLE_PAGE != 0) &&
                  ((classify b).cycles_exceptions &&& CYCLE_BRANCH != 0))
      = [0x10, 0x30, 0x50, 0x70, 0x90, 0xB0, 0xD0, 0xF0]) ∧
    ([0x10, 0x30, 0x50, 0x70, 0x90, 0xB0, 0xD0, 0xF0].all
        (fun b => (classify b).addressing == addressing_mode_e.RELAT)) = true ∧
    (classify (buf_beq 0x1000 % 256)).addressing = addressing_mode_e.RELAT ∧
    (disassemble buf_beq true 0x1000).word_operand =
      relat_target 0x1000 (buf_beq ((0x1000 + 1) % 65536) % 256) :=
  both_flags_only_branches buf_beq 0x1000 (by decide) (by decide) (by decide)

/-- C9: opcode 0x41 (EOR indexed-indirect X) with cycle counting enabled is
annotated 6/7, and 0x41 is the only IndexedIndirectX entry of the table
with a nonzero cycle-exception mask; the conservative +1 ambiguity is
preserved as-is. -/
theorem eor_indin_conservative_annotation (buffer : Nat → Nat) (offset : Nat)
    (hoff : offset < 65536) (hop : buffer offset % 256 = 0x41) :
    (disassemble buffer true offset).cycles = some (CycleAnn.two 6 7) ∧
    ((List.range 256).filter
        (fun b => ((classify b).addressing == addressing_mode_e.INDIN) &&
                  ((classify b).cycles_exceptions &&& CYCLE_MASK != 0))
      = [0x41]) := by
  refine ⟨?_, by decide⟩
  have hm : offset % 65536 = offset := Nat.mod_eq_of_lt hoff
  have hc : classify 0x41 = ⟨"EOR", .INDIN, 6, 1⟩ := by decide
  have ha : ∀ p n, append_cycle 0x41 p n = CycleAnn.two 6 7 := by
    intro p n
    simp [append_cycle, hc, CYCLE_MASK, CYCLE_PAGE, CYCLE_BRANCH]
  simp [disassemble, BAD, hm, hop, hc, ha]

def buf_eor_indin : Nat → Nat := fun _ => 0x41

theorem eor_indin_conservative_annotation_witness :
    (disassemble buf_eor_indin true 0x300).cycles = some (CycleAnn.two 6 7) ∧
    ((List.range 256).filter
        (fun b => ((classify b).addressing == addressing_mode_e.INDIN) &&
                  ((classify b).cycles_exceptions &&& CYCLE_MASK != 0))
      = [0x41]) :=
  eor_indin_conservative_annotation buf_eor_indin 0x300 (by decide) (by decide)

/-- Witness input for C10: BEQ with operand 0x40 at 0xFFF0, whose target
0xFFF2 + 0x40 wraps to 0x0032. -/
def buf_wrap : Nat → Nat := fun i =>
  if i = 0xFFF0 then 0xF0 else if i = 0xFFF1 then 0x40 else 0

/-- C10: all cursor and target arithmetic is performed modulo 2^16: the
next offset is (offset + instruction length) mod 65536, the decoded
word_operand always fits in 16 bits, and a Relative target computed near
the top of the address space wraps to a low address. -/
theorem cursor_and_target_mod_2_16 (buffer : Nat → Nat) (cc : Bool) (offset : Nat)
    (hoff : offset < 65536) :
    (disassemble buffer cc offset).next_pc =
      (offset + instr_length (buffer offset % 256)) % 65536 ∧
    (disassemble buffer cc offset).word_operand < 65536 ∧
    (disassemble buf_wrap true 0xFFF0).word_operand = 0x32 :=
  ⟨disassemble_next_pc buffer cc offset hoff,
   disassemble_word_lt buffer cc offset,
   by decide⟩

theorem cursor_and_target_mod_2_16_witness :
    (disassemble buf_wrap true 0xFFF0).next_pc =
      (0xFFF0 + instr_length (buf_wrap 0xFFF0 % 256)) % 65536 ∧
    (disassemble buf_wrap true 0xFFF0).word_operand < 65536 ∧
    (disassemble buf_wrap true 0xFFF0).word_operand = 0x32 :=
  cursor_and_target_mod_2_16 buf_wrap true 0xFFF0 (by decide)

end Dcc6502
